import Mathlib

/-!
Verification development for the griffine library (grid/tile coordinate
model).  The Python sources `griffine/types.py` and `griffine/grid.py` are
two overlapping revisions of one design; the definitions below embed the
union of both: the shared `GridType`/`CellType`/`TiledType` behaviour, the
concrete `Grid`, `AffineGrid`, `TiledGrid`, `TiledAffineGrid` classes, the
tiling entry points `tile_via`/`tile_into`, and the transform propagation
rules.  Python ints are modelled as `ℤ`; the affine coefficients (Python
floats) are modelled as exact rationals `ℚ`; `raise` is modelled with
`Except`.  `math.ceil(a / b)` on positive integers is modelled as exact
ceiling division.
-/

namespace Griffine

/-- Modelled from the spec: the error taxonomy of `griffine.exceptions`
(that module is not under src/; only its four class names are imported by
the sources).  One constructor per error class, carrying the message. -/
inductive GriffineError where
  | invalidCoordinateError (msg : String)
  | invalidGridError (msg : String)
  | invalidTilingError (msg : String)
  | outOfBoundsError (msg : String)
deriving DecidableEq

/-- The 6-coefficient affine transform value (the `affine.Affine` type used
by the sources), coefficients as exact rationals. -/
structure Affine where
  a : ℚ
  b : ℚ
  c : ℚ
  d : ℚ
  e : ℚ
  f : ℚ
deriving DecidableEq

/-- A plain grid: `Grid` from `grid.py` (rows/cols set by
`GridType.__init__`). -/
structure Grid where
  rows : ℤ
  cols : ℤ
deriving DecidableEq

/-- `GridType.__init__`: rejects `rows < 1` or `cols < 1` with
`InvalidGridError`. -/
def mkGrid (rows cols : ℤ) : Except GriffineError Grid :=
  if rows < 1 then .error (.invalidGridError "grid rows must be 1 or greater")
  else if cols < 1 then .error (.invalidGridError "grid cols must be 1 or greater")
  else .ok ⟨rows, cols⟩

/-- A cell of a grid-like object of type `T`: `GridCell` from `types.py`,
holding the back-reference `grid` (the Python class is generic in the grid
type). -/
structure GridCell (T : Type) where
  row : ℤ
  col : ℤ
  grid : T
deriving DecidableEq

/-- `GridCell.__init__` / `CellType.__init__`: rejects a negative row or
col with `InvalidCoordinateError`, then stores the back-reference. -/
def mkGridCell {T : Type} (row col : ℤ) (grid : T) :
    Except GriffineError (GridCell T) :=
  if row < 0 then .error (.invalidCoordinateError "cell row must be 0 or greater")
  else if col < 0 then .error (.invalidCoordinateError "cell col must be 0 or greater")
  else .ok ⟨row, col, grid⟩

/-- The index resolution of `GridType.__getitem__` (types.py lines 77-78):
`coords[0] if coords[0] >= 0 else coords[0] + self.rows`. -/
def resolveIdx (i n : ℤ) : ℤ :=
  if i ≥ 0 then i else i + n

/-- `GridType.__getitem__` (types.py lines 73-86), shared by every class
with `rows`/`cols`: resolve negative indices, bounds-check, and build a
`GridCell` that references `self`. -/
def getitemOn {T : Type} (rows cols : ℤ) (self : T) (coords : ℤ × ℤ) :
    Except GriffineError (GridCell T) :=
  if resolveIdx coords.1 rows < 0 ∨ resolveIdx coords.1 rows ≥ rows then
    .error (.outOfBoundsError "row outside grid")
  else if resolveIdx coords.2 cols < 0 ∨ resolveIdx coords.2 cols ≥ cols then
    .error (.outOfBoundsError "column outside grid")
  else mkGridCell (resolveIdx coords.1 rows) (resolveIdx coords.2 cols) self

/-- Indexing a plain `Grid` (inherited `GridType.__getitem__`). -/
def Grid.getitem (g : Grid) (coords : ℤ × ℤ) :
    Except GriffineError (GridCell Grid) :=
  getitemOn g.rows g.cols g coords

/-- `GridCell.linear_index` (types.py lines 220-227):
`(self.grid.cols * self.row) + self.col`. -/
def GridCell.linear_index (cell : GridCell Grid) : ℤ :=
  cell.grid.cols * cell.row + cell.col

/-- `math.ceil(a / b)` for positive integers, as exact ceiling division. -/
def ceilDiv (a b : ℤ) : ℤ :=
  (a + b - 1) / b

/-- `can_tile_into` (types.py lines 106-107):
`tile_count == math.ceil(grid_size / math.ceil(grid_size / tile_count))`. -/
def can_tile_into (grid_size tile_count : ℤ) : Bool :=
  tile_count == ceilDiv grid_size (ceilDiv grid_size tile_count)

/-- `TiledGrid` from `grid.py` (a `Tiled` + `GridType`): `rows`/`cols` are
the tile-grid dimensions (counts of tiles); `tile_rows`/`tile_cols` the
nominal size of one tile; `base_grid` the grid that was tiled. -/
structure TiledGrid where
  rows : ℤ
  cols : ℤ
  tile_rows : ℤ
  tile_cols : ℤ
  base_grid : Grid
deriving DecidableEq

/-- `TiledGrid.__init__`: the cooperative constructor chain runs the
`GridType` checks (rows/cols ≥ 1) and then the `Tiled` checks
(tile_rows/tile_cols ≥ 1). -/
def mkTiledGrid (rows cols tile_rows tile_cols : ℤ) (base_grid : Grid) :
    Except GriffineError TiledGrid :=
  if rows < 1 then .error (.invalidGridError "grid rows must be 1 or greater")
  else if cols < 1 then .error (.invalidGridError "grid cols must be 1 or greater")
  else if tile_rows < 1 then .error (.invalidGridError "tile grid rows must be 1 or greater")
  else if tile_cols < 1 then .error (.invalidGridError "tile grid cols must be 1 or greater")
  else .ok ⟨rows, cols, tile_rows, tile_cols, base_grid⟩

/-- `GridTile` (types.py lines 230-239): a tile is both a cell of the tile
grid (position `row`/`col`, back-reference `grid`) and a grid of its own
(`rows`/`cols`). -/
structure GridTile where
  row : ℤ
  col : ℤ
  rows : ℤ
  cols : ℤ
  grid : TiledGrid
deriving DecidableEq

/-- `GridTile.__init__`: the constructor chain runs the `CellType` checks
(row/col ≥ 0) and then the `GridType` checks (rows/cols ≥ 1). -/
def mkGridTile (row col rows cols : ℤ) (grid : TiledGrid) :
    Except GriffineError GridTile :=
  if row < 0 then .error (.invalidCoordinateError "cell row must be 0 or greater")
  else if col < 0 then .error (.invalidCoordinateError "cell col must be 0 or greater")
  else if rows < 1 then .error (.invalidGridError "grid rows must be 1 or greater")
  else if cols < 1 then .error (.invalidGridError "grid cols must be 1 or greater")
  else .ok ⟨row, col, rows, cols, grid⟩

/-- `TiledType.__getitem__` (types.py lines 187-207): same resolution and
bounds checks as `GridType.__getitem__` but against the tile-grid
dimensions, returning a `GridTile` whose own size is always the nominal
tile size `(self.tile_rows, self.tile_cols)`. -/
def TiledGrid.getitem (tg : TiledGrid) (coords : ℤ × ℤ) :
    Except GriffineError GridTile :=
  if resolveIdx coords.1 tg.rows < 0 ∨ resolveIdx coords.1 tg.rows ≥ tg.rows then
    .error (.outOfBoundsError "row outside grid")
  else if resolveIdx coords.2 tg.cols < 0 ∨ resolveIdx coords.2 tg.cols ≥ tg.cols then
    .error (.outOfBoundsError "column outside grid")
  else mkGridTile (resolveIdx coords.1 tg.rows) (resolveIdx coords.2 tg.cols)
    tg.tile_rows tg.tile_cols tg

/-- Indexing into a `GridTile` (inherited `GridType.__getitem__`, run
against the tile's own `rows`/`cols`; the returned cell references the
tile). -/
def GridTile.getitem (t : GridTile) (coords : ℤ × ℤ) :
    Except GriffineError (GridCell GridTile) :=
  getitemOn t.rows t.cols t coords

/-- `Grid._tiled` (grid.py lines 213-224): build a `TiledGrid` from
(tile-grid dimensions, tile size, self). -/
def Grid.tiled (g : Grid) (grid_size tile_size : ℤ × ℤ) :
    Except GriffineError TiledGrid :=
  mkTiledGrid grid_size.1 grid_size.2 tile_size.1 tile_size.2 g

/-- `TileableType.tile_via` (types.py lines 118-135) specialised to
`Grid`: fail if self is smaller than the pattern in either dimension, else
tile with tile-grid dimensions `ceil(self / pattern)` and tile size equal
to the pattern's size. -/
def Grid.tile_via (g : Grid) (pattern : Grid) : Except GriffineError TiledGrid :=
  if g.cols < pattern.cols ∨ g.rows < pattern.rows then
    .error (.invalidTilingError "Cannot tile grid of size self.size with tiles of size grid.size")
  else
    g.tiled (ceilDiv g.rows pattern.rows, ceilDiv g.cols pattern.cols)
      (pattern.rows, pattern.cols)

/-- `TileableType.tile_into` (types.py lines 137-154) specialised to
`Grid`: fail unless both dimensions pass `can_tile_into`, else tile with
tile-grid dimensions equal to the pattern's size and tile size
`ceil(self / pattern)`. -/
def Grid.tile_into (g : Grid) (pattern : Grid) : Except GriffineError TiledGrid :=
  if !(can_tile_into g.rows pattern.rows && can_tile_into g.cols pattern.cols) then
    .error (.invalidTilingError "Cannot tile grid of size self.size into grid grid.size")
  else
    g.tiled (pattern.rows, pattern.cols)
      (ceilDiv g.rows pattern.rows, ceilDiv g.cols pattern.cols)

/-- `AffineGrid` from `grid.py`: a grid carrying an affine transform. -/
structure AffineGrid where
  rows : ℤ
  cols : ℤ
  transform : Affine
deriving DecidableEq

/-- `AffineGrid.__init__`: runs the `GridType` checks and stores the
transform. -/
def mkAffineGrid (rows cols : ℤ) (transform : Affine) :
    Except GriffineError AffineGrid :=
  if rows < 1 then .error (.invalidGridError "grid rows must be 1 or greater")
  else if cols < 1 then .error (.invalidGridError "grid cols must be 1 or greater")
  else .ok ⟨rows, cols, transform⟩

/-- `Grid.add_transform` (grid.py lines 226-231): build an `AffineGrid`
with the same dimensions and the given transform. -/
def Grid.add_transform (g : Grid) (transform : Affine) :
    Except GriffineError AffineGrid :=
  mkAffineGrid g.rows g.cols transform

/-- `TiledAffineGrid` from `grid.py`: a tiled grid carrying an affine
transform, over an `AffineGrid` base. -/
structure TiledAffineGrid where
  rows : ℤ
  cols : ℤ
  tile_rows : ℤ
  tile_cols : ℤ
  base_grid : AffineGrid
  transform : Affine
deriving DecidableEq

/-- `TiledAffineGrid.__init__`: the constructor chain runs the `GridType`
checks then the `Tiled` checks, and stores base grid and transform. -/
def mkTiledAffineGrid (rows cols tile_rows tile_cols : ℤ)
    (base_grid : AffineGrid) (transform : Affine) :
    Except GriffineError TiledAffineGrid :=
  if rows < 1 then .error (.invalidGridError "grid rows must be 1 or greater")
  else if cols < 1 then .error (.invalidGridError "grid cols must be 1 or greater")
  else if tile_rows < 1 then .error (.invalidGridError "tile grid rows must be 1 or greater")
  else if tile_cols < 1 then .error (.invalidGridError "tile grid cols must be 1 or greater")
  else .ok ⟨rows, cols, tile_rows, tile_cols, base_grid, transform⟩

/-- `AffineGrid._tiled` (grid.py lines 238-257): build a `TiledAffineGrid`
whose transform is derived from self's by
`Affine(a * tile_size[0], b, c, d, e * tile_size[1], f)` — note the source
multiplies `a` by `tile_size[0]` (= tile_rows) and `e` by `tile_size[1]`
(= tile_cols). -/
def AffineGrid.tiled (g : AffineGrid) (grid_size tile_size : ℤ × ℤ) :
    Except GriffineError TiledAffineGrid :=
  mkTiledAffineGrid grid_size.1 grid_size.2 tile_size.1 tile_size.2 g
    ⟨g.transform.a * (tile_size.1 : ℚ), g.transform.b, g.transform.c,
     g.transform.d, g.transform.e * (tile_size.2 : ℚ), g.transform.f⟩

/-- `TileableType.tile_via` specialised to `AffineGrid` (same shared body,
dispatching to `AffineGrid._tiled`). -/
def AffineGrid.tile_via (g : AffineGrid) (pattern : Grid) :
    Except GriffineError TiledAffineGrid :=
  if g.cols < pattern.cols ∨ g.rows < pattern.rows then
    .error (.invalidTilingError "Cannot tile grid of size self.size with tiles of size grid.size")
  else
    g.tiled (ceilDiv g.rows pattern.rows, ceilDiv g.cols pattern.cols)
      (pattern.rows, pattern.cols)

/-- `TileableType.tile_into` specialised to `AffineGrid` (same shared
body, dispatching to `AffineGrid._tiled`). -/
def AffineGrid.tile_into (g : AffineGrid) (pattern : Grid) :
    Except GriffineError TiledAffineGrid :=
  if !(can_tile_into g.rows pattern.rows && can_tile_into g.cols pattern.cols) then
    .error (.invalidTilingError "Cannot tile grid of size self.size into grid grid.size")
  else
    g.tiled (pattern.rows, pattern.cols)
      (ceilDiv g.rows pattern.rows, ceilDiv g.cols pattern.cols)

/-- `TiledGrid.add_transform` (grid.py lines 277-295): treat the given
transform as tile-level, derive the base-grid transform by dividing the
scale coefficients by the tile size (`a / tile_cols`, `e / tile_rows`),
and wrap a freshly transform-attached copy of the base grid. -/
def TiledGrid.add_transform (tg : TiledGrid) (transform : Affine) :
    Except GriffineError TiledAffineGrid := do
  let base ← tg.base_grid.add_transform
    ⟨transform.a / (tg.tile_cols : ℚ), transform.b, transform.c,
     transform.d, transform.e / (tg.tile_rows : ℚ), transform.f⟩
  mkTiledAffineGrid tg.rows tg.cols tg.tile_rows tg.tile_cols base transform

/-- Row-major flattening of a rows × cols grid into a one-dimensional
sequence of (row, col) coordinates, per the docstring of `linear_index`
("the list of all cells in the grid, as would be given by reshaping the
grid into a 1-d array of length rows * cols"). -/
def rowMajorCells : ℕ → ℕ → List (ℤ × ℤ)
  | 0, _ => []
  | r + 1, c => rowMajorCells r c ++ (List.range c).map (fun (j : ℕ) => ((r : ℤ), (j : ℤ)))

/-! Helper lemmas about ceiling division and the evaluation of the tiling
entry points. -/

theorem le_mul_ceilDiv (a b : ℤ) (hb : 0 < b) : a ≤ b * ceilDiv a b := by
  unfold ceilDiv
  have h := Int.ediv_add_emod (a + b - 1) b
  have h2 := Int.emod_nonneg (a + b - 1) (ne_of_gt hb)
  have h3 := Int.emod_lt_of_pos (a + b - 1) hb
  omega

theorem one_le_ceilDiv (a b : ℤ) (ha : 1 ≤ a) (hb : 0 < b) : 1 ≤ ceilDiv a b := by
  unfold ceilDiv
  rw [Int.le_ediv_iff_mul_le hb]
  omega

theorem tile_via_ok_eq (g p : Grid) (hgr : 1 ≤ g.rows) (hpr : 1 ≤ p.rows)
    (hpc : 1 ≤ p.cols) (hrows : p.rows ≤ g.rows) (hcols : p.cols ≤ g.cols) :
    g.tile_via p =
      .ok ⟨ceilDiv g.rows p.rows, ceilDiv g.cols p.cols, p.rows, p.cols, g⟩ := by
  have h1 := one_le_ceilDiv g.rows p.rows hgr hpr
  have h2 := one_le_ceilDiv g.cols p.cols (by omega) hpc
  unfold Grid.tile_via Grid.tiled mkTiledGrid
  rw [if_neg (by omega), if_neg (by omega), if_neg (by omega),
    if_neg (by omega), if_neg (by omega)]

theorem tile_into_ok_eq (g p : Grid) (hgr : 1 ≤ g.rows) (hgc : 1 ≤ g.cols)
    (hpr : 1 ≤ p.rows) (hpc : 1 ≤ p.cols)
    (hcan : can_tile_into g.rows p.rows && can_tile_into g.cols p.cols) :
    g.tile_into p =
      .ok ⟨p.rows, p.cols, ceilDiv g.rows p.rows, ceilDiv g.cols p.cols, g⟩ := by
  have h1 := one_le_ceilDiv g.rows p.rows hgr hpr
  have h2 := one_le_ceilDiv g.cols p.cols hgc hpc
  unfold Grid.tile_into Grid.tiled mkTiledGrid
  rw [hcan]
  rw [if_neg (by simp), if_neg (by omega), if_neg (by omega),
    if_neg (by omega), if_neg (by omega)]

theorem getitemOn_eq_of_resolve {T : Type} (rows cols : ℤ) (self : T)
    (p q : ℤ × ℤ) (h1 : resolveIdx p.1 rows = resolveIdx q.1 rows)
    (h2 : resolveIdx p.2 cols = resolveIdx q.2 cols) :
    getitemOn rows cols self p = getitemOn rows cols self q := by
  unfold getitemOn
  rw [h1, h2]

theorem getitemOn_ok {T : Type} (rows cols : ℤ) (self : T) (row col : ℤ)
    (h1 : 0 ≤ resolveIdx row rows) (h2 : resolveIdx row rows < rows)
    (h3 : 0 ≤ resolveIdx col cols) (h4 : resolveIdx col cols < cols) :
    getitemOn rows cols self (row, col) =
      .ok ⟨resolveIdx row rows, resolveIdx col cols, self⟩ := by
  unfold getitemOn mkGridCell
  dsimp only
  rw [if_neg (by omega), if_neg (by omega), if_neg (by omega), if_neg (by omega)]

theorem getitemOn_oob {T : Type} (rows cols : ℤ) (self : T) (row col : ℤ)
    (h : resolveIdx row rows < 0 ∨ resolveIdx row rows ≥ rows ∨
      resolveIdx col cols < 0 ∨ resolveIdx col cols ≥ cols) :
    ∃ m, getitemOn rows cols self (row, col) = .error (.outOfBoundsError m) := by
  unfold getitemOn
  dsimp only
  by_cases hr : resolveIdx row rows < 0 ∨ resolveIdx row rows ≥ rows
  · rw [if_pos hr]
    exact ⟨_, rfl⟩
  · rw [if_neg hr, if_pos (by omega)]
    exact ⟨_, rfl⟩

/-! The claims. -/

/-- C5: `tile_into(pattern)` fails with `InvalidTilingError` exactly when the
ceiling-division balance rule `k == ceil(n / ceil(n / k))` fails on the rows
or on the cols; on success the tiled grid has tile size
`(ceil(rows / k_r), ceil(cols / k_c))` and tile-grid dimensions equal to the
pattern's dimensions. -/
theorem tile_into_balance_rule (g p : Grid) (hgr : 1 ≤ g.rows) (hgc : 1 ≤ g.cols)
    (hpr : 1 ≤ p.rows) (hpc : 1 ≤ p.cols) :
    ((∃ m, g.tile_into p = .error (.invalidTilingError m)) ↔
      (p.rows ≠ ceilDiv g.rows (ceilDiv g.rows p.rows) ∨
       p.cols ≠ ceilDiv g.cols (ceilDiv g.cols p.cols))) ∧
    (∀ tg, g.tile_into p = .ok tg →
      tg.tile_rows = ceilDiv g.rows p.rows ∧ tg.tile_cols = ceilDiv g.cols p.cols ∧
      tg.rows = p.rows ∧ tg.cols = p.cols ∧ tg.base_grid = g) ∧
    ((p.rows = ceilDiv g.rows (ceilDiv g.rows p.rows) ∧
      p.cols = ceilDiv g.cols (ceilDiv g.cols p.cols)) →
      ∃ tg, g.tile_into p = .ok tg) := by
  have hAiff : (can_tile_into g.rows p.rows = true) ↔
      p.rows = ceilDiv g.rows (ceilDiv g.rows p.rows) := by
    simp [can_tile_into]
  have hBiff : (can_tile_into g.cols p.cols = true) ↔
      p.cols = ceilDiv g.cols (ceilDiv g.cols p.cols) := by
    simp [can_tile_into]
  by_cases hcan : can_tile_into g.rows p.rows && can_tile_into g.cols p.cols
  · have hok := tile_into_ok_eq g p hgr hgc hpr hpc hcan
    rw [Bool.and_eq_true] at hcan
    refine ⟨⟨fun ⟨m, hm⟩ => absurd (hok ▸ hm) (by simp), fun h => ?_⟩, ?_, ?_⟩
    · rcases h with h | h
      · exact absurd (hAiff.mp hcan.1) h
      · exact absurd (hBiff.mp hcan.2) h
    · intro tg htg
      rw [hok] at htg
      cases htg
      exact ⟨rfl, rfl, rfl, rfl, rfl⟩
    · intro _
      exact ⟨_, hok⟩
  · have herr : g.tile_into p =
        .error (.invalidTilingError "Cannot tile grid of size self.size into grid grid.size") := by
      unfold Grid.tile_into
      rw [if_pos (by simp [Bool.eq_false_iff.mpr hcan])]
    rw [Bool.and_eq_true, not_and_or] at hcan
    refine ⟨⟨fun _ => ?_, fun _ => ⟨_, herr⟩⟩, ?_, ?_⟩
    · rcases hcan with h | h
      · exact Or.inl (fun he => h (hAiff.mpr he))
      · exact Or.inr (fun he => h (hBiff.mpr he))
    · intro tg htg
      rw [herr] at htg
      cases htg
    · intro ⟨h1, h2⟩
      rcases hcan with h | h
      · exact absurd (hAiff.mpr h1) h
      · exact absurd (hBiff.mpr h2) h

/-- Witness for C5 at `Grid(100, 100).tile_into(Grid(10, 10))`. -/
theorem tile_into_balance_rule_witness :
    ∃ tg, Grid.tile_into ⟨100, 100⟩ ⟨10, 10⟩ = .ok tg :=
  (tile_into_balance_rule ⟨100, 100⟩ ⟨10, 10⟩ (by decide) (by decide) (by decide)
    (by decide)).2.2 ⟨by decide, by decide⟩

/-- C6: `tile_via(pattern)` fails with `InvalidTilingError` exactly when the
grid is smaller than the pattern in some dimension; on success the tiled grid
has tile-grid dimensions `ceil(self.rows / pattern.rows)` by
`ceil(self.cols / pattern.cols)` and nominal tile size equal to the pattern's
size. -/
theorem tile_via_spec (g p : Grid) (hgr : 1 ≤ g.rows) (hgc : 1 ≤ g.cols)
    (hpr : 1 ≤ p.rows) (hpc : 1 ≤ p.cols) :
    ((∃ m, g.tile_via p = .error (.invalidTilingError m)) ↔
      (g.rows < p.rows ∨ g.cols < p.cols)) ∧
    (∀ tg, g.tile_via p = .ok tg →
      tg.rows = ceilDiv g.rows p.rows ∧ tg.cols = ceilDiv g.cols p.cols ∧
      tg.tile_rows = p.rows ∧ tg.tile_cols = p.cols ∧ tg.base_grid = g) ∧
    (¬(g.rows < p.rows ∨ g.cols < p.cols) → ∃ tg, g.tile_via p = .ok tg) := by
  by_cases hsmall : g.cols < p.cols ∨ g.rows < p.rows
  · have herr : g.tile_via p =
        .error (.invalidTilingError "Cannot tile grid of size self.size with tiles of size grid.size") := by
      unfold Grid.tile_via
      rw [if_pos hsmall]
    refine ⟨⟨fun _ => by omega, fun _ => ⟨_, herr⟩⟩, ?_, fun h => by omega⟩
    intro tg htg
    rw [herr] at htg
    cases htg
  · have hok := tile_via_ok_eq g p hgr hpr hpc (by omega) (by omega)
    refine ⟨⟨fun ⟨m, hm⟩ => absurd (hok ▸ hm) (by simp), fun h => by omega⟩, ?_, ?_⟩
    · intro tg htg
      rw [hok] at htg
      cases htg
      exact ⟨rfl, rfl, rfl, rfl, rfl⟩
    · intro _
      exact ⟨_, hok⟩

/-- Witness for C6 at `Grid(10000, 5000).tile_via(Grid(1024, 1024))`. -/
theorem tile_via_spec_witness :
    ∃ tg, Grid.tile_via ⟨10000, 5000⟩ ⟨1024, 1024⟩ = .ok tg :=
  (tile_via_spec ⟨10000, 5000⟩ ⟨1024, 1024⟩ (by decide) (by decide) (by decide)
    (by decide)).2.2 (by decide)

theorem affine_tile_via_ok_eq (g : AffineGrid) (p : Grid) (hgr : 1 ≤ g.rows)
    (hpr : 1 ≤ p.rows) (hpc : 1 ≤ p.cols) (hrows : p.rows ≤ g.rows)
    (hcols : p.cols ≤ g.cols) :
    g.tile_via p =
      .ok ⟨ceilDiv g.rows p.rows, ceilDiv g.cols p.cols, p.rows, p.cols, g,
        ⟨g.transform.a * (p.rows : ℚ), g.transform.b, g.transform.c,
         g.transform.d, g.transform.e * (p.cols : ℚ), g.transform.f⟩⟩ := by
  have h1 := one_le_ceilDiv g.rows p.rows hgr hpr
  have h2 := one_le_ceilDiv g.cols p.cols (by omega) hpc
  unfold AffineGrid.tile_via AffineGrid.tiled mkTiledAffineGrid
  rw [if_neg (by omega), if_neg (by omega), if_neg (by omega),
    if_neg (by omega), if_neg (by omega)]

theorem affine_tile_into_ok_eq (g : AffineGrid) (p : Grid) (hgr : 1 ≤ g.rows)
    (hgc : 1 ≤ g.cols) (hpr : 1 ≤ p.rows) (hpc : 1 ≤ p.cols)
    (hcan : can_tile_into g.rows p.rows && can_tile_into g.cols p.cols) :
    g.tile_into p =
      .ok ⟨p.rows, p.cols, ceilDiv g.rows p.rows, ceilDiv g.cols p.cols, g,
        ⟨g.transform.a * (ceilDiv g.rows p.rows : ℚ), g.transform.b, g.transform.c,
         g.transform.d, g.transform.e * (ceilDiv g.cols p.cols : ℚ), g.transform.f⟩⟩ := by
  have h1 := one_le_ceilDiv g.rows p.rows hgr hpr
  have h2 := one_le_ceilDiv g.cols p.cols hgc hpc
  unfold AffineGrid.tile_into AffineGrid.tiled mkTiledAffineGrid
  rw [hcan]
  rw [if_neg (by simp), if_neg (by omega), if_neg (by omega),
    if_neg (by omega), if_neg (by omega)]

/-- C9: every tiled grid produced by a successful `tile_via` or `tile_into`
(on a plain grid or on a transform-carrying grid) has nominal tile
dimensions at least 1 × 1, and its tile-grid dimensions multiplied
componentwise by the tile dimensions cover the base grid:
`rows * tile_rows ≥ base.rows` and `cols * tile_cols ≥ base.cols`. -/
theorem tiled_covering_invariant (g : Grid) (ag : AffineGrid) (p : Grid)
    (hgr : 1 ≤ g.rows) (hgc : 1 ≤ g.cols) (hagr : 1 ≤ ag.rows) (hagc : 1 ≤ ag.cols)
    (hpr : 1 ≤ p.rows) (hpc : 1 ≤ p.cols) :
    (∀ tg, g.tile_via p = .ok tg →
      1 ≤ tg.tile_rows ∧ 1 ≤ tg.tile_cols ∧
      tg.base_grid.rows ≤ tg.rows * tg.tile_rows ∧
      tg.base_grid.cols ≤ tg.cols * tg.tile_cols) ∧
    (∀ tg, g.tile_into p = .ok tg →
      1 ≤ tg.tile_rows ∧ 1 ≤ tg.tile_cols ∧
      tg.base_grid.rows ≤ tg.rows * tg.tile_rows ∧
      tg.base_grid.cols ≤ tg.cols * tg.tile_cols) ∧
    (∀ tga, ag.tile_via p = .ok tga →
      1 ≤ tga.tile_rows ∧ 1 ≤ tga.tile_cols ∧
      tga.base_grid.rows ≤ tga.rows * tga.tile_rows ∧
      tga.base_grid.cols ≤ tga.cols * tga.tile_cols) ∧
    (∀ tga, ag.tile_into p = .ok tga →
      1 ≤ tga.tile_rows ∧ 1 ≤ tga.tile_cols ∧
      tga.base_grid.rows ≤ tga.rows * tga.tile_rows ∧
      tga.base_grid.cols ≤ tga.cols * tga.tile_cols) := by
  have hvr := le_mul_ceilDiv g.rows p.rows (by omega)
  have hvc := le_mul_ceilDiv g.cols p.cols (by omega)
  have havr := le_mul_ceilDiv ag.rows p.rows (by omega)
  have havc := le_mul_ceilDiv ag.cols p.cols (by omega)
  refine ⟨fun tg htg => ?_, fun tg htg => ?_, fun tga htga => ?_, fun tga htga => ?_⟩
  · unfold Grid.tile_via Grid.tiled mkTiledGrid at htg
    split at htg
    · cases htg
    · split at htg
      · cases htg
      · split at htg
        · cases htg
        · split at htg
          · cases htg
          · split at htg
            · cases htg
            · cases htg
              dsimp only
              refine ⟨by omega, by omega, by simpa [mul_comm] using hvr,
                by simpa [mul_comm] using hvc⟩
  · unfold Grid.tile_into Grid.tiled mkTiledGrid at htg
    split at htg
    · cases htg
    · split at htg
      · cases htg
      · split at htg
        · cases htg
        · split at htg
          · cases htg
          · split at htg
            · cases htg
            · cases htg
              dsimp only
              exact ⟨by omega, by omega, hvr, hvc⟩
  · unfold AffineGrid.tile_via AffineGrid.tiled mkTiledAffineGrid at htga
    split at htga
    · cases htga
    · split at htga
      · cases htga
      · split at htga
        · cases htga
        · split at htga
          · cases htga
          · split at htga
            · cases htga
            · cases htga
              dsimp only
              refine ⟨by omega, by omega, by simpa [mul_comm] using havr,
                by simpa [mul_comm] using havc⟩
  · unfold AffineGrid.tile_into AffineGrid.tiled mkTiledAffineGrid at htga
    split at htga
    · cases htga
    · split at htga
      · cases htga
      · split at htga
        · cases htga
        · split at htga
          · cases htga
          · split at htga
            · cases htga
            · cases htga
              dsimp only
              exact ⟨by omega, by omega, havr, havc⟩

/-- Witness for C9 at `Grid(12, 20).tile_via(Grid(5, 6))`. -/
theorem tiled_covering_invariant_witness :
    1 ≤ (5 : ℤ) ∧ 1 ≤ (6 : ℤ) ∧ (12 : ℤ) ≤ 3 * 5 ∧ (20 : ℤ) ≤ 4 * 6 :=
  (tiled_covering_invariant ⟨12, 20⟩ ⟨12, 20, ⟨1, 0, 0, 0, 1, 0⟩⟩ ⟨5, 6⟩
    (by decide) (by decide) (by decide) (by decide) (by decide) (by decide)).1
    ⟨3, 4, 5, 6, ⟨12, 20⟩⟩ (by rfl)

/-- C7: `cell_at(-k, c)` with `0 < k ≤ rows` behaves identically to
`cell_at(rows - k, c)`; and after wraparound resolution, indexing returns the
cell with the resolved coordinates (referencing this grid) when both resolved
coordinates are in bounds, and fails with `OutOfBoundsError` exactly
otherwise. -/
theorem getitem_wraparound_spec (g : Grid) :
    (∀ k c : ℤ, 0 < k → k ≤ g.rows → g.getitem (-k, c) = g.getitem (g.rows - k, c)) ∧
    (∀ row col : ℤ,
      ((0 ≤ resolveIdx row g.rows ∧ resolveIdx row g.rows < g.rows ∧
        0 ≤ resolveIdx col g.cols ∧ resolveIdx col g.cols < g.cols) →
        g.getitem (row, col) = .ok ⟨resolveIdx row g.rows, resolveIdx col g.cols, g⟩) ∧
      (¬(0 ≤ resolveIdx row g.rows ∧ resolveIdx row g.rows < g.rows ∧
         0 ≤ resolveIdx col g.cols ∧ resolveIdx col g.cols < g.cols) →
        ∃ m, g.getitem (row, col) = .error (.outOfBoundsError m))) := by
  refine ⟨fun k c hk hkr => ?_, fun row col => ⟨fun h => ?_, fun h => ?_⟩⟩
  · refine getitemOn_eq_of_resolve g.rows g.cols g (-k, c) (g.rows - k, c) ?_ rfl
    show resolveIdx (-k) g.rows = resolveIdx (g.rows - k) g.rows
    unfold resolveIdx
    rw [if_neg (by omega), if_pos (by omega)]
    ring
  · exact getitemOn_ok g.rows g.cols g row col h.1 h.2.1 h.2.2.1 h.2.2.2
  · exact getitemOn_oob g.rows g.cols g row col (by omega)

/-- Witness for C7 on a 5 × 4 grid at `k = 2`, `c = 1`. -/
theorem getitem_wraparound_spec_witness :
    Grid.getitem ⟨5, 4⟩ (-2, 1) = Grid.getitem ⟨5, 4⟩ (3, 1) :=
  (getitem_wraparound_spec ⟨5, 4⟩).1 2 1 (by decide) (by decide)

/-- C10: indexing a grid never raises `InvalidCoordinateError` — the negative
check in the cell constructor is unreachable from `__getitem__`; the result is
either an `OutOfBoundsError` or a cell whose coordinates satisfy
`0 ≤ row < rows` and `0 ≤ col < cols`. -/
theorem getitem_no_invalid_coordinate (g : Grid) (coords : ℤ × ℤ) :
    (∀ m, g.getitem coords ≠ .error (.invalidCoordinateError m)) ∧
    ((∃ m, g.getitem coords = .error (.outOfBoundsError m)) ∨
      (∃ cell, g.getitem coords = .ok cell ∧
        0 ≤ cell.row ∧ cell.row < g.rows ∧ 0 ≤ cell.col ∧ cell.col < g.cols)) := by
  obtain ⟨row, col⟩ := coords
  by_cases h : (resolveIdx row g.rows < 0 ∨ resolveIdx row g.rows ≥ g.rows) ∨
      (resolveIdx col g.cols < 0 ∨ resolveIdx col g.cols ≥ g.cols)
  · obtain ⟨m, hm⟩ := getitemOn_oob g.rows g.cols g row col (by omega)
    refine ⟨fun m' hm' => ?_, Or.inl ⟨m, hm⟩⟩
    rw [show g.getitem (row, col) = getitemOn g.rows g.cols g (row, col) from rfl,
      hm] at hm'
    simp at hm'
  · have hok := getitemOn_ok g.rows g.cols g row col (by omega) (by omega) (by omega)
      (by omega)
    refine ⟨fun m' hm' => ?_,
      Or.inr ⟨_, hok, by dsimp only; omega, by dsimp only; omega,
        by dsimp only; omega, by dsimp only; omega⟩⟩
    rw [show g.getitem (row, col) = getitemOn g.rows g.cols g (row, col) from rfl,
      hok] at hm'
    simp at hm'

/-- C2 (counterexample): for `Grid(10000, 5000).tile_via(Grid(1024, 1024))`,
cell (0, 0) of the tile at (9, 4) has row 0 and col 0 — the tile-local
coordinates — not the base-grid-absolute `9 * 1024 + 0` and `4 * 1024 + 0`
the claim requires. -/
theorem tile_cell_not_base_absolute :
    ∃ tg tile cell,
      Grid.tile_via ⟨10000, 5000⟩ ⟨1024, 1024⟩ = .ok tg ∧
      tg.getitem (9, 4) = .ok tile ∧
      tile.getitem (0, 0) = .ok cell ∧
      cell.row = 0 ∧ cell.col = 0 ∧
      ¬(cell.row = 9 * 1024 + 0 ∧ cell.col = 4 * 1024 + 0) :=
  ⟨⟨10, 5, 1024, 1024, ⟨10000, 5000⟩⟩,
   ⟨9, 4, 1024, 1024, ⟨10, 5, 1024, 1024, ⟨10000, 5000⟩⟩⟩,
   ⟨0, 0, ⟨9, 4, 1024, 1024, ⟨10, 5, 1024, 1024, ⟨10000, 5000⟩⟩⟩⟩,
   rfl, rfl, rfl, rfl, rfl, by decide⟩

/-- C2 (amended): indexing a tile at (r, c) resolves (r, c) against the
tile's own size with the usual wraparound and bounds rules and returns a cell
whose row/col are the tile-local resolved coordinates — not re-expressed in
the base grid's coordinate space — with a back-reference to the tile it came
from. -/
theorem tile_cell_local_coords (tile : GridTile) (r c : ℤ)
    (h1 : 0 ≤ resolveIdx r tile.rows) (h2 : resolveIdx r tile.rows < tile.rows)
    (h3 : 0 ≤ resolveIdx c tile.cols) (h4 : resolveIdx c tile.cols < tile.cols) :
    tile.getitem (r, c) =
      .ok ⟨resolveIdx r tile.rows, resolveIdx c tile.cols, tile⟩ :=
  getitemOn_ok tile.rows tile.cols tile r c h1 h2 h3 h4

/-- Witness for the amended C2 on the tile at (9, 4) of
`Grid(10000, 5000).tile_via(Grid(1024, 1024))`, indexed at (5, 7). -/
theorem tile_cell_local_coords_witness :
    GridTile.getitem ⟨9, 4, 1024, 1024, ⟨10, 5, 1024, 1024, ⟨10000, 5000⟩⟩⟩ (5, 7) =
      .ok ⟨5, 7, ⟨9, 4, 1024, 1024, ⟨10, 5, 1024, 1024, ⟨10000, 5000⟩⟩⟩⟩ :=
  tile_cell_local_coords ⟨9, 4, 1024, 1024, ⟨10, 5, 1024, 1024, ⟨10000, 5000⟩⟩⟩ 5 7
    (by decide) (by decide) (by decide) (by decide)

theorem rowMajorCells_length (R C : ℕ) : (rowMajorCells R C).length = R * C := by
  induction R with
  | zero => simp [rowMajorCells]
  | succ r ih =>
    rw [rowMajorCells, List.length_append, List.length_map, List.length_range, ih,
      Nat.succ_mul]

theorem rowMajorCells_getElem (R C r c : ℕ) (hr : r < R) (hc : c < C) :
    (rowMajorCells R C)[r * C + c]? = some ((r : ℤ), (c : ℤ)) := by
  induction R with
  | zero => omega
  | succ R ih =>
    rcases Nat.lt_succ_iff_lt_or_eq.mp hr with h | h
    · rw [rowMajorCells, List.getElem?_append_left]
      · exact ih h
      · rw [rowMajorCells_length]
        calc r * C + c < r * C + C := by omega
          _ = (r + 1) * C := by ring
          _ ≤ R * C := Nat.mul_le_mul_right C h
    · subst h
      rw [rowMajorCells, List.getElem?_append_right (by rw [rowMajorCells_length]; omega),
        rowMajorCells_length, Nat.add_sub_cancel_left, List.getElem?_map,
        List.getElem?_range hc]
      rfl

/-- C8: `linear_index` equals `row * grid.cols + col`, and that value is the
cell's position in the row-major flattening of the full grid into a
one-dimensional sequence; on a 10 × 10 grid, (0,0) ↦ 0, (9,9) ↦ 99,
(4,9) ↦ 49, (5,0) ↦ 50, (0,5) ↦ 5. -/
theorem linear_index_spec :
    (∀ cell : GridCell Grid, cell.linear_index = cell.row * cell.grid.cols + cell.col) ∧
    (∀ cell : GridCell Grid, 0 ≤ cell.row → cell.row < cell.grid.rows →
      0 ≤ cell.col → cell.col < cell.grid.cols →
      (rowMajorCells cell.grid.rows.toNat cell.grid.cols.toNat)[cell.linear_index.toNat]? =
        some (cell.row, cell.col)) ∧
    ((Grid.getitem ⟨10, 10⟩ (0, 0)).map GridCell.linear_index = .ok 0 ∧
     (Grid.getitem ⟨10, 10⟩ (9, 9)).map GridCell.linear_index = .ok 99 ∧
     (Grid.getitem ⟨10, 10⟩ (4, 9)).map GridCell.linear_index = .ok 49 ∧
     (Grid.getitem ⟨10, 10⟩ (5, 0)).map GridCell.linear_index = .ok 50 ∧
     (Grid.getitem ⟨10, 10⟩ (0, 5)).map GridCell.linear_index = .ok 5) := by
  refine ⟨fun cell => by unfold GridCell.linear_index; ring, fun cell h1 h2 h3 h4 => ?_,
    rfl, rfl, rfl, rfl, rfl⟩
  obtain ⟨r, hr⟩ := Int.eq_ofNat_of_zero_le h1
  obtain ⟨c, hc⟩ := Int.eq_ofNat_of_zero_le h3
  obtain ⟨R, hR⟩ := Int.eq_ofNat_of_zero_le (le_trans h1 (le_of_lt h2))
  obtain ⟨C, hC⟩ := Int.eq_ofNat_of_zero_le (le_trans h3 (le_of_lt h4))
  have hrR : r < R := by omega
  have hcC : c < C := by omega
  have hidx : cell.linear_index.toNat = r * C + c := by
    unfold GridCell.linear_index
    rw [hr, hc, hC]
    have hcast : ((C : ℤ)) * r + c = ((r * C + c : ℕ) : ℤ) := by push_cast; ring
    rw [hcast, Int.toNat_natCast]
  rw [hidx, hr, hc, hR, hC, Int.toNat_natCast, Int.toNat_natCast]
  exact rowMajorCells_getElem R C r c hrR hcC

/-- Witness for C8: the cell at (2, 1) of a 3 × 4 grid sits at position 9 of
the row-major flattening. -/
theorem linear_index_spec_witness :
    (rowMajorCells (3 : ℤ).toNat (4 : ℤ).toNat)[((⟨2, 1, ⟨3, 4⟩⟩ :
        GridCell Grid).linear_index).toNat]? = some (2, 1) :=
  linear_index_spec.2.1 ⟨2, 1, ⟨3, 4⟩⟩ (by decide) (by decide) (by decide) (by decide)

/-- C1 (code evaluation): contrary to the claim — and to the repository's own
test `test_grid_tile_via`, which asserts a 1000 × 1000 tile at (9, 4) —
`TiledType.__getitem__` always returns a tile of the nominal tile size, so in
`Grid(10000, 5000).tile_via(Grid(1024, 1024))` the tile at (9, 4) has
rows = cols = 1024 instead of the remainder `10000 - 9*1024 = 1000`,
`5000 - 4*1024 = 1000`. -/
theorem last_tile_not_truncated :
    ∃ tg tile,
      Grid.tile_via ⟨10000, 5000⟩ ⟨1024, 1024⟩ = .ok tg ∧
      tg.getitem (9, 4) = .ok tile ∧
      tile.rows = 1024 ∧ tile.cols = 1024 ∧
      ¬(tile.rows = 10000 - 9 * 1024 ∧ tile.cols = 5000 - 4 * 1024) :=
  ⟨⟨10, 5, 1024, 1024, ⟨10000, 5000⟩⟩,
   ⟨9, 4, 1024, 1024, ⟨10, 5, 1024, 1024, ⟨10000, 5000⟩⟩⟩,
   rfl, rfl, rfl, rfl, by decide⟩

/-- C3 (code evaluation): `AffineGrid._tiled` multiplies `a` by
`tile_size[0]` (= tile_rows) and `e` by `tile_size[1]` (= tile_cols) — the
axes are swapped relative to the claim (`a' = a * tile_cols`,
`e' = e * tile_rows`) and to `TiledGrid.add_transform`, which divides `a` by
`tile_cols` and `e` by `tile_rows`.  With transform (10, 0, 0, 0, -10, 0)
and tile size 2 × 3 the code produces `a' = 20` and `e' = -30` where the
claim requires `a' = 30` and `e' = -20`. -/
theorem affine_tiled_transform_scales_swapped :
    ∃ tga,
      AffineGrid.tile_via ⟨4, 6, ⟨10, 0, 0, 0, -10, 0⟩⟩ ⟨2, 3⟩ = .ok tga ∧
      tga.tile_rows = 2 ∧ tga.tile_cols = 3 ∧
      tga.transform.a = tga.base_grid.transform.a * (tga.tile_rows : ℚ) ∧
      tga.transform.e = tga.base_grid.transform.e * (tga.tile_cols : ℚ) ∧
      tga.transform.a ≠ tga.base_grid.transform.a * (tga.tile_cols : ℚ) ∧
      tga.transform.e ≠ tga.base_grid.transform.e * (tga.tile_rows : ℚ) :=
  ⟨⟨2, 2, 2, 3, ⟨4, 6, ⟨10, 0, 0, 0, -10, 0⟩⟩, ⟨20, 0, 0, 0, -30, 0⟩⟩,
   by norm_num [AffineGrid.tile_via, AffineGrid.tiled, mkTiledAffineGrid, ceilDiv],
   rfl, rfl, by norm_num, by norm_num, by norm_num, by norm_num⟩

/-- C4 (code evaluation): the invariant
`tile_transform.a == base_transform.a * tile_cols` (and the `e`/`tile_rows`
analogue) fails for a transform-carrying tiled grid built by tiling an
`AffineGrid` with a non-square tile, because `AffineGrid._tiled` swaps the
axes (see C3); with base transform (7, 0, 0, 0, -7, 0) and tile size 4 × 5
the tile transform is (28, ..., -35, ...) where the invariant requires
(35, ..., -28, ...). -/
theorem tiled_affine_invariant_violated :
    ∃ tga,
      AffineGrid.tile_via ⟨8, 10, ⟨7, 0, 0, 0, -7, 0⟩⟩ ⟨4, 5⟩ = .ok tga ∧
      ¬(tga.transform.a = tga.base_grid.transform.a * (tga.tile_cols : ℚ) ∧
        tga.transform.e = tga.base_grid.transform.e * (tga.tile_rows : ℚ)) :=
  ⟨⟨2, 2, 4, 5, ⟨8, 10, ⟨7, 0, 0, 0, -7, 0⟩⟩, ⟨28, 0, 0, 0, -35, 0⟩⟩,
   by norm_num [AffineGrid.tile_via, AffineGrid.tiled, mkTiledAffineGrid, ceilDiv],
   fun ⟨ha, _⟩ => by norm_num at ha⟩

end Griffine
